import Mathlib

/-
Verification development for the Mars lander simulator core
(src/lander.cpp): the autopilot control law and the Verlet
integrator, embedded shallowly over exact rationals.

The C++ doubles are embedded as ℚ (exact field arithmetic); machine
floating point itself is out of scope.  Every definition below is a
direct transcription of the corresponding function in src/lander.cpp;
line references are given at each definition.
-/

set_option linter.unusedVariables false

namespace MarsLander

/-- Three-component vector modelling the simulator type vector3d
(double components embedded as exact rationals). -/
@[ext] structure vector3d where
  x : ℚ
  y : ℚ
  z : ℚ
deriving DecidableEq

instance : Add vector3d := ⟨fun u v => ⟨u.x + v.x, u.y + v.y, u.z + v.z⟩⟩

instance : Sub vector3d := ⟨fun u v => ⟨u.x - v.x, u.y - v.y, u.z - v.z⟩⟩

instance : SMul ℚ vector3d := ⟨fun c v => ⟨c * v.x, c * v.y, c * v.z⟩⟩

instance : Zero vector3d := ⟨⟨0, 0, 0⟩⟩

theorem vadd_def (u v : vector3d) :
    u + v = ⟨u.x + v.x, u.y + v.y, u.z + v.z⟩ := rfl

theorem vsub_def (u v : vector3d) :
    u - v = ⟨u.x - v.x, u.y - v.y, u.z - v.z⟩ := rfl

theorem vsmul_def (c : ℚ) (v : vector3d) :
    c • v = ⟨c * v.x, c * v.y, c * v.z⟩ := rfl

theorem vzero_def : (0 : vector3d) = ⟨0, 0, 0⟩ := rfl

/-- Parachute state enum of lander.h, as used by lander.cpp. -/
inductive ParachuteStatus where
  | NOT_DEPLOYED
  | DEPLOYED
  | LOST
deriving DecidableEq

/-- Per-invocation inputs of the autopilot (lander.cpp lines 22-33).
The source computes h = position.abs() - MARS_RADIUS and
vel_radial = velocity * position.norm() from the lander pose; both are
read-only functions of the pose, so they enter the embedding as inputs.
The field safe is the value returned by the external collaborator
safe_to_deploy_parachute() on this call.  The mass parameter is passed
by the driver but never read by the autopilot body, as in the source. -/
structure APInput where
  safe : Bool
  h : ℚ
  vel_radial : ℚ
  g_force : ℚ
  mass : ℚ
deriving DecidableEq

/-- The autopilot-visible mutable state: the module-scoped flag
system_engaged (line 18), the static local vel_engaged (line 25), and
the lander fields throttle and parachute_status that the autopilot may
write. -/
structure APState where
  system_engaged : Bool
  vel_engaged : ℚ
  throttle : ℚ
  parachute_status : ParachuteStatus
deriving DecidableEq

/-- The throttle written while ENGAGED (lander.cpp lines 59-69),
transcribed statement by statement.  Note that the first `if` in the
source has no else-branch, while the following `if`/`else` pair assigns
throttle on every path: the value 0 written by the first `if` is
therefore always dead, and the result never depends on the incoming
throttle either. -/
def engaged_throttle (throttle weight_throttle power_output : ℚ) : ℚ :=
  let after_first_if : ℚ :=
    if power_output ≤ -weight_throttle then 0 else throttle
  let after_second_if : ℚ :=
    if -weight_throttle < power_output ∧ power_output < 1 - weight_throttle then
      weight_throttle + power_output
    else 1
  after_second_if

/-- The gain schedule and error computation of the ENGAGED branch
(lander.cpp lines 55-57): Kh, e and power_output as functions of the
scenario initial altitude, the latched engagement velocity, and the
current altitude and radial velocity. -/
def autopilot_power_output (initial_altitude vel_engaged h vel_radial : ℚ) : ℚ :=
  let Kp : ℚ := 0.05
  let alt_engage := initial_altitude * 0.5
  let Kh := -((0.7) * (1 / Kp) + 0.5 + vel_engaged) / alt_engage
  let e := -(0.5 + Kh * h + vel_radial)
  Kp * e

/-- One invocation of autopilot (lander.cpp lines 22-73).  MAX_THRUST
and initial_altitude come from lander.h and the scenario initializer;
both are parameters here. -/
def autopilot_step (MAX_THRUST initial_altitude : ℚ) (inp : APInput)
    (s : APState) : APState :=
  let h := inp.h
  let alt_engage := initial_altitude * 0.5
  let weight_throttle := inp.g_force / MAX_THRUST
  let vel_radial := inp.vel_radial
  let chute_engage := alt_engage - (initial_altitude - 10000) / 1.943
  let parachute_status :=
    if h < chute_engage ∧ s.parachute_status = ParachuteStatus.NOT_DEPLOYED then
      if inp.safe then ParachuteStatus.DEPLOYED else s.parachute_status
    else s.parachute_status
  if s.system_engaged = false then
    if h < alt_engage then
      { s with system_engaged := true, vel_engaged := vel_radial,
               parachute_status := parachute_status }
    else
      { s with parachute_status := parachute_status }
  else
    let power_output :=
      autopilot_power_output initial_altitude s.vel_engaged h vel_radial
    { s with throttle := engaged_throttle s.throttle weight_throttle power_output,
             parachute_status := parachute_status }

/-- A run of the autopilot over a sequence of per-step inputs, with
MAX_THRUST and initial_altitude fixed for the scenario. -/
def autopilot_run (MAX_THRUST initial_altitude : ℚ) (inps : List APInput)
    (s : APState) : APState :=
  inps.foldl (fun st i => autopilot_step MAX_THRUST initial_altitude i st) s

/-- Integrator-visible state: the global first_iteration flag (line 20,
an int holding 1 or 0, embedded as a Bool meaning first_iteration == 1)
and the static local previous_position (line 82), together with the
lander position and velocity that the integrator updates. -/
structure IntegratorState where
  first_iteration : Bool
  previous_position : vector3d
  position : vector3d
  velocity : vector3d
deriving DecidableEq

/-- The velocity back-derivation expression
(2 * position - previous_position + a * delta_t * delta_t
 - previous_position) * 0.5 * 1 / delta_t, written identically on
lines 106 and 114 of lander.cpp; factored here so that the theorem that
both branches use the same central-difference formula is meaningful. -/
def verlet_velocity (delta_t : ℚ) (a position previous_position : vector3d) :
    vector3d :=
  (0.5 * 1 / delta_t) •
    ((2 : ℚ) • position - previous_position + (delta_t * delta_t) • a
      - previous_position)

/-- One Verlet step (lander.cpp lines 103-115), taking the net
acceleration a, already divided by mass by the caller (line 94), and
the time step delta_t as inputs. -/
def verlet_step (delta_t : ℚ) (a : vector3d) (s : IntegratorState) :
    IntegratorState :=
  if s.first_iteration = true then
    let previous_position := s.position
    let position := previous_position + delta_t • s.velocity
      + (0.5 * delta_t * delta_t) • a
    let velocity := verlet_velocity delta_t a position previous_position
    ⟨false, previous_position, position, velocity⟩
  else
    let current_position := s.position
    let position := (2 : ℚ) • current_position - s.previous_position
      + (delta_t * delta_t) • a
    let previous_position := current_position
    let velocity := verlet_velocity delta_t a position previous_position
    ⟨false, previous_position, position, velocity⟩

/-- The Euclidean norm position.abs(), specialised to vectors with at
most one nonzero component: on such vectors the L1 norm below equals
the L2 norm exactly, and initialize_simulation only ever evaluates
position.abs() on the axis-aligned start positions of scenarios 1
and 5.  (The general Euclidean norm needs a square root, which does
not exist over ℚ.) -/
def axis_abs (v : vector3d) : ℚ := |v.x| + |v.y| + |v.z|

/-- Global simulator state touched by initialize_simulation: the two
scenario-scoped core flags and initial_altitude (lander.cpp lines
18-20), plus the lander pose and configuration fields set by the
scenario switch. -/
structure GlobalState where
  first_iteration : Bool
  system_engaged : Bool
  initial_altitude : ℚ
  position : vector3d
  velocity : vector3d
  orientation : vector3d
  delta_t : ℚ
  parachute_status : ParachuteStatus
  stabilized_attitude : Bool
  autopilot_enabled : Bool
deriving DecidableEq

/-- initialize_simulation (lander.cpp lines 124-216).  The constants
MARS_RADIUS, EXOSPHERE and LANDER_SIZE come from lander.h, which is not
part of the sources; they are kept as abstract parameters.  The
scenario_description strings are omitted (pure UI data).  A scenario
number outside 0-5 falls through the switch and changes nothing beyond
the two flag resets, as in the source. -/
def initialize_simulation (MARS_RADIUS EXOSPHERE LANDER_SIZE : ℚ)
    (scenario : ℕ) (g : GlobalState) : GlobalState :=
  let g := { g with first_iteration := true, system_engaged := false }
  match scenario with
  | 0 =>
    { g with
      position := ⟨1.2 * MARS_RADIUS, 0, 0⟩,
      velocity := ⟨0, -3247.087385863725, 0⟩,
      orientation := ⟨0, 90, 0⟩,
      delta_t := 0.1,
      parachute_status := ParachuteStatus.NOT_DEPLOYED,
      stabilized_attitude := false,
      autopilot_enabled := false }
  | 1 =>
    let position : vector3d := ⟨0, -(MARS_RADIUS + 10000), 0⟩
    { g with
      position := position,
      velocity := ⟨0, 0, 0⟩,
      orientation := ⟨0, 0, 90⟩,
      delta_t := 0.1,
      parachute_status := ParachuteStatus.NOT_DEPLOYED,
      stabilized_attitude := true,
      autopilot_enabled := true,
      initial_altitude := axis_abs position - MARS_RADIUS }
  | 2 =>
    { g with
      position := ⟨0, 0, 1.2 * MARS_RADIUS⟩,
      velocity := ⟨3500, 0, 0⟩,
      orientation := ⟨0, 0, 90⟩,
      delta_t := 0.1,
      parachute_status := ParachuteStatus.NOT_DEPLOYED,
      stabilized_attitude := false,
      autopilot_enabled := false }
  | 3 =>
    { g with
      position := ⟨0, 0, MARS_RADIUS + LANDER_SIZE / 2⟩,
      velocity := ⟨0, 0, 5027⟩,
      orientation := ⟨0, 0, 0⟩,
      delta_t := 0.1,
      parachute_status := ParachuteStatus.NOT_DEPLOYED,
      stabilized_attitude := false,
      autopilot_enabled := false }
  | 4 =>
    { g with
      position := ⟨0, 0, MARS_RADIUS + 100000⟩,
      velocity := ⟨4000, 0, 0⟩,
      orientation := ⟨0, 90, 0⟩,
      delta_t := 0.1,
      parachute_status := ParachuteStatus.NOT_DEPLOYED,
      stabilized_attitude := false,
      autopilot_enabled := false }
  | 5 =>
    let position : vector3d := ⟨0, -(MARS_RADIUS + EXOSPHERE), 0⟩
    { g with
      position := position,
      velocity := ⟨0, 0, 0⟩,
      orientation := ⟨0, 0, 90⟩,
      delta_t := 0.1,
      parachute_status := ParachuteStatus.NOT_DEPLOYED,
      stabilized_attitude := true,
      autopilot_enabled := true,
      initial_altitude := axis_abs position - MARS_RADIUS }
  | _ => g

/-! ### Helper lemmas about the engaged throttle law -/

/-- The engaged throttle law collapses to a two-way split: the value 0
written by the first source `if` is dead, overwritten by the trailing
`if`/`else`, which assigns on every path. -/
theorem engaged_throttle_eq (t wt po : ℚ) :
    engaged_throttle t wt po =
      if -wt < po ∧ po < 1 - wt then wt + po else 1 := rfl

theorem engaged_throttle_bounds (t wt po : ℚ) :
    0 ≤ engaged_throttle t wt po ∧ engaged_throttle t wt po ≤ 1 := by
  rw [engaged_throttle_eq]
  split_ifs with h
  · constructor <;> linarith [h.1, h.2]
  · norm_num

theorem engaged_throttle_pos (t wt po : ℚ) :
    (0 < engaged_throttle t wt po ∧ engaged_throttle t wt po < 1) ∨
      engaged_throttle t wt po = 1 := by
  rw [engaged_throttle_eq]
  split_ifs with h
  · left; constructor <;> linarith [h.1, h.2]
  · right; rfl

/-! ### Helper lemmas about single autopilot invocations -/

theorem autopilot_step_engaged_mono (MT ia : ℚ) (i : APInput) (s : APState)
    (h : s.system_engaged = true) :
    (autopilot_step MT ia i s).system_engaged = true ∧
    (autopilot_step MT ia i s).vel_engaged = s.vel_engaged := by
  simp [autopilot_step, h]

theorem autopilot_step_throttle_engaged (MT ia : ℚ) (i : APInput) (s : APState)
    (h : s.system_engaged = true) :
    (autopilot_step MT ia i s).throttle =
      engaged_throttle s.throttle (i.g_force / MT)
        (autopilot_power_output ia s.vel_engaged i.h i.vel_radial) := by
  simp [autopilot_step, h]

theorem autopilot_step_stay_disengaged (MT ia : ℚ) (i : APInput) (s : APState)
    (h : s.system_engaged = false) (hnf : ¬ (i.h < ia * 0.5)) :
    (autopilot_step MT ia i s).system_engaged = false ∧
    (autopilot_step MT ia i s).vel_engaged = s.vel_engaged ∧
    (autopilot_step MT ia i s).throttle = s.throttle := by
  simp [autopilot_step, h, hnf]

theorem autopilot_step_fire (MT ia : ℚ) (i : APInput) (s : APState)
    (h : s.system_engaged = false) (hf : i.h < ia * 0.5) :
    (autopilot_step MT ia i s).system_engaged = true ∧
    (autopilot_step MT ia i s).vel_engaged = i.vel_radial ∧
    (autopilot_step MT ia i s).throttle = s.throttle := by
  simp [autopilot_step, h, hf]

theorem autopilot_step_parachute (MT ia : ℚ) (i : APInput) (s : APState) :
    (autopilot_step MT ia i s).parachute_status =
      if i.h < ia * 0.5 - (ia - 10000) / 1.943 ∧
          s.parachute_status = ParachuteStatus.NOT_DEPLOYED ∧ i.safe = true
      then ParachuteStatus.DEPLOYED else s.parachute_status := by
  simp only [autopilot_step]
  split_ifs <;> simp_all

/-! ### Helper lemmas about autopilot runs -/

theorem autopilot_run_cons (MT ia : ℚ) (i : APInput) (rest : List APInput)
    (s : APState) :
    autopilot_run MT ia (i :: rest) s =
      autopilot_run MT ia rest (autopilot_step MT ia i s) := rfl

theorem autopilot_run_engaged (MT ia : ℚ) (inps : List APInput) (s : APState)
    (h : s.system_engaged = true) :
    (autopilot_run MT ia inps s).system_engaged = true ∧
    (autopilot_run MT ia inps s).vel_engaged = s.vel_engaged := by
  induction inps generalizing s with
  | nil => exact ⟨h, rfl⟩
  | cons i rest ih =>
      rw [autopilot_run_cons]
      obtain ⟨h1, h2⟩ := autopilot_step_engaged_mono MT ia i s h
      obtain ⟨h3, h4⟩ := ih _ h1
      exact ⟨h3, h4.trans h2⟩

theorem autopilot_run_stay_disengaged (MT ia : ℚ) (inps : List APInput)
    (s : APState) (h : s.system_engaged = false)
    (hnf : ∀ i ∈ inps, ¬ (i.h < ia * 0.5)) :
    (autopilot_run MT ia inps s).system_engaged = false ∧
    (autopilot_run MT ia inps s).vel_engaged = s.vel_engaged := by
  induction inps generalizing s with
  | nil => exact ⟨h, rfl⟩
  | cons i rest ih =>
      rw [autopilot_run_cons]
      obtain ⟨h1, h2, -⟩ :=
        autopilot_step_stay_disengaged MT ia i s h (hnf i (by simp))
      obtain ⟨h3, h4⟩ := ih _ h1 (fun j hj => hnf j (by simp [hj]))
      exact ⟨h3, h4.trans h2⟩

theorem autopilot_run_no_deploy (MT ia : ℚ) (inps : List APInput) (s : APState)
    (h : s.parachute_status = ParachuteStatus.NOT_DEPLOYED)
    (hsafe : ∀ i ∈ inps, i.safe = false) :
    (autopilot_run MT ia inps s).parachute_status =
      ParachuteStatus.NOT_DEPLOYED := by
  induction inps generalizing s with
  | nil => exact h
  | cons i rest ih =>
      rw [autopilot_run_cons]
      refine ih _ ?_ (fun j hj => hsafe j (by simp [hj]))
      rw [autopilot_step_parachute]
      simp [hsafe i (by simp), h]

/-! ### Claim theorems -/

/-- C1: the claim states the three-branch saturation mapping, with
throttle = 0 for power_output ≤ -weight_throttle.  The code contradicts
it: the first source `if` lacks an else, so the following `if`/`else`
pair overwrites the 0 with 1.  At initial_altitude = 1000, MAX_THRUST
= 1, g_force = 1/2 (so weight_throttle = 1/2), h = 0, vel_radial = 100
and vel_engaged = 0, power_output evaluates to -201/40 ≤ -1/2, yet the
engaged invocation writes throttle = 1 instead of the claimed 0. -/
theorem C1_saturation_bug :
    autopilot_power_output 1000 0 0 100 = -(201/40) ∧
    ((-(201/40) : ℚ) ≤ -((1/2) / 1)) ∧
    (autopilot_step 1 1000 ⟨false, 0, 100, 1/2, 1⟩
      ⟨true, 0, 0, ParachuteStatus.NOT_DEPLOYED⟩).throttle = 1 := by
  refine ⟨by norm_num [autopilot_power_output], by norm_num, ?_⟩
  rw [autopilot_step_throttle_engaged 1 1000 ⟨false, 0, 100, 1/2, 1⟩
    ⟨true, 0, 0, ParachuteStatus.NOT_DEPLOYED⟩ rfl, engaged_throttle_eq]
  norm_num [autopilot_power_output]

/-- C3: the claim states continuity of the engaged throttle law at both
saturation boundaries.  At the lower boundary the code is discontinuous:
with weight_throttle = 1/2, the law returns 1 at power_output = -1/2
but 1/1000 just inside the linear region, a jump of height 999/1000.
At the upper boundary it is continuous, as shown by the last two
conjuncts. -/
theorem C3_continuity_bug :
    engaged_throttle 0 (1/2) (-(1/2)) = 1 ∧
    engaged_throttle 0 (1/2) (-(1/2) + 1/1000) = 1/1000 ∧
    engaged_throttle 0 (1/2) (1 - 1/2) = 1 ∧
    engaged_throttle 0 (1/2) (1 - 1/2 - 1/1000) = 1 - 1/1000 := by
  norm_num [engaged_throttle_eq]

/-- C4: for any inputs and any internal autopilot state, an engaged
invocation writes a throttle in [0,1], and every invocation preserves
the invariant throttle ∈ [0,1]. -/
theorem C4_throttle_clamped (MT ia : ℚ) (inp : APInput) (s : APState) :
    (s.system_engaged = true →
      0 ≤ (autopilot_step MT ia inp s).throttle ∧
      (autopilot_step MT ia inp s).throttle ≤ 1) ∧
    (0 ≤ s.throttle → s.throttle ≤ 1 →
      0 ≤ (autopilot_step MT ia inp s).throttle ∧
      (autopilot_step MT ia inp s).throttle ≤ 1) := by
  constructor
  · intro h
    rw [autopilot_step_throttle_engaged MT ia inp s h]
    exact engaged_throttle_bounds _ _ _
  · intro h0 h1
    cases hs : s.system_engaged with
    | true =>
        rw [autopilot_step_throttle_engaged MT ia inp s hs]
        exact engaged_throttle_bounds _ _ _
    | false =>
        by_cases hf : inp.h < ia * 0.5
        · rw [(autopilot_step_fire MT ia inp s hs hf).2.2]; exact ⟨h0, h1⟩
        · rw [(autopilot_step_stay_disengaged MT ia inp s hs hf).2.2]
          exact ⟨h0, h1⟩

theorem C4_witness :
    0 ≤ (autopilot_step 1 1000 ⟨false, 100, 0, 1, 1⟩
          ⟨true, 0, 0, ParachuteStatus.NOT_DEPLOYED⟩).throttle ∧
    (autopilot_step 1 1000 ⟨false, 100, 0, 1, 1⟩
          ⟨true, 0, 0, ParachuteStatus.NOT_DEPLOYED⟩).throttle ≤ 1 :=
  (C4_throttle_clamped 1 1000 ⟨false, 100, 0, 1, 1⟩
    ⟨true, 0, 0, ParachuteStatus.NOT_DEPLOYED⟩).1 rfl

/-- C6: on a run starting disengaged, for every prefix of non-firing
inputs (h ≥ alt_engage) the engagement flag stays false and vel_engaged
is untouched; from the first firing input (h < alt_engage) on, the flag
is true and vel_engaged holds the radial velocity of that firing
invocation, whatever inputs follow: the latch is write-once per run. -/
theorem C6_engagement_latch (MT ia : ℚ) (pre : List APInput)
    (fire : APInput) (post : List APInput) (s0 : APState)
    (hs0 : s0.system_engaged = false)
    (hpre : ∀ i ∈ pre, ¬ (i.h < ia * 0.5))
    (hfire : fire.h < ia * 0.5) :
    (autopilot_run MT ia pre s0).system_engaged = false ∧
    (autopilot_run MT ia pre s0).vel_engaged = s0.vel_engaged ∧
    (autopilot_run MT ia (pre ++ fire :: post) s0).system_engaged = true ∧
    (autopilot_run MT ia (pre ++ fire :: post) s0).vel_engaged =
      fire.vel_radial := by
  obtain ⟨h1, h2⟩ := autopilot_run_stay_disengaged MT ia pre s0 hs0 hpre
  have happ : autopilot_run MT ia (pre ++ fire :: post) s0 =
      autopilot_run MT ia post
        (autopilot_step MT ia fire (autopilot_run MT ia pre s0)) := by
    simp [autopilot_run, List.foldl_append]
  obtain ⟨h3, h4, -⟩ :=
    autopilot_step_fire MT ia fire (autopilot_run MT ia pre s0) h1 hfire
  obtain ⟨h5, h6⟩ := autopilot_run_engaged MT ia post
    (autopilot_step MT ia fire (autopilot_run MT ia pre s0)) h3
  exact ⟨h1, h2, by rw [happ]; exact h5, by rw [happ]; exact h6.trans h4⟩

theorem C6_witness :
    (autopilot_run 1 1000
      ([⟨false, 600, 5, 1, 1⟩] ++ ⟨false, 400, -7, 1, 1⟩ ::
        [⟨false, 300, -9, 1, 1⟩])
      ⟨false, 0, 0, ParachuteStatus.NOT_DEPLOYED⟩).vel_engaged = -7 :=
  (C6_engagement_latch 1 1000 [⟨false, 600, 5, 1, 1⟩] ⟨false, 400, -7, 1, 1⟩
    [⟨false, 300, -9, 1, 1⟩] ⟨false, 0, 0, ParachuteStatus.NOT_DEPLOYED⟩
    rfl (by intro i hi; simp only [List.mem_singleton] at hi; subst hi; norm_num)
    (by norm_num)).2.2.2

/-- C7: a single invocation changes parachute_status exactly by the
NOT_DEPLOYED to DEPLOYED transition, fired precisely when
h < alt_engage - (initial_altitude - 10000)/1.943 with
alt_engage = 0.5 * initial_altitude and the safety check permits;
DEPLOYED and LOST are never left; and on a run on which the safety
check always returns false the status stays NOT_DEPLOYED. -/
theorem C7_parachute_transitions (MT ia : ℚ) (inp : APInput) (s : APState)
    (inps : List APInput) (s0 : APState)
    (hsafe : ∀ i ∈ inps, i.safe = false)
    (h0 : s0.parachute_status = ParachuteStatus.NOT_DEPLOYED) :
    ((autopilot_step MT ia inp s).parachute_status =
      if inp.h < 0.5 * ia - (ia - 10000) / 1.943 ∧
          s.parachute_status = ParachuteStatus.NOT_DEPLOYED ∧ inp.safe = true
      then ParachuteStatus.DEPLOYED else s.parachute_status) ∧
    (s.parachute_status = ParachuteStatus.DEPLOYED →
      (autopilot_step MT ia inp s).parachute_status =
        ParachuteStatus.DEPLOYED) ∧
    (s.parachute_status = ParachuteStatus.LOST →
      (autopilot_step MT ia inp s).parachute_status = ParachuteStatus.LOST) ∧
    (autopilot_run MT ia inps s0).parachute_status =
      ParachuteStatus.NOT_DEPLOYED := by
  have hcomm : 0.5 * ia = ia * 0.5 := by ring
  refine ⟨?_, ?_, ?_, autopilot_run_no_deploy MT ia inps s0 h0 hsafe⟩
  · rw [autopilot_step_parachute, hcomm]
  · intro hd
    rw [autopilot_step_parachute]
    simp [hd]
  · intro hl
    rw [autopilot_step_parachute]
    simp [hl]

theorem C7_witness :
    (autopilot_run 1 1000
      [⟨false, 100, 0, 1, 1⟩, ⟨false, 50, 0, 1, 1⟩]
      ⟨false, 0, 0, ParachuteStatus.NOT_DEPLOYED⟩).parachute_status =
      ParachuteStatus.NOT_DEPLOYED :=
  (C7_parachute_transitions 1 1000 ⟨false, 100, 0, 1, 1⟩
    ⟨false, 0, 0, ParachuteStatus.NOT_DEPLOYED⟩
    [⟨false, 100, 0, 1, 1⟩, ⟨false, 50, 0, 1, 1⟩]
    ⟨false, 0, 0, ParachuteStatus.NOT_DEPLOYED⟩ (by simp) rfl).2.2.2

/-- C8: an invocation that begins disengaged, including the one on
which engagement itself fires, leaves the throttle field unchanged. -/
theorem C8_disengaged_frame (MT ia : ℚ) (inp : APInput) (s : APState)
    (h : s.system_engaged = false) :
    (autopilot_step MT ia inp s).throttle = s.throttle := by
  by_cases hf : inp.h < ia * 0.5
  · exact (autopilot_step_fire MT ia inp s h hf).2.2
  · exact (autopilot_step_stay_disengaged MT ia inp s h hf).2.2

theorem C8_witness :
    (autopilot_step 1 1000 ⟨false, 400, -7, 1, 1⟩
      ⟨false, 0, 1/4, ParachuteStatus.NOT_DEPLOYED⟩).throttle = 1/4 :=
  C8_disengaged_frame 1 1000 ⟨false, 400, -7, 1, 1⟩
    ⟨false, 0, 1/4, ParachuteStatus.NOT_DEPLOYED⟩ rfl

/-- C10: an engaged invocation always writes a strictly positive
throttle: either a value in the open interval (0,1) from the linear
region, or exactly 1; full cutoff is never commanded while engaged. -/
theorem C10_no_cutoff_while_engaged (MT ia : ℚ) (inp : APInput)
    (s : APState) (h : s.system_engaged = true) :
    (0 < (autopilot_step MT ia inp s).throttle ∧
      (autopilot_step MT ia inp s).throttle < 1) ∨
    (autopilot_step MT ia inp s).throttle = 1 := by
  rw [autopilot_step_throttle_engaged MT ia inp s h]
  exact engaged_throttle_pos _ _ _

theorem C10_witness :
    (0 < (autopilot_step 1 1000 ⟨false, 100, 0, 1, 1⟩
          ⟨true, 0, 0, ParachuteStatus.NOT_DEPLOYED⟩).throttle ∧
      (autopilot_step 1 1000 ⟨false, 100, 0, 1, 1⟩
          ⟨true, 0, 0, ParachuteStatus.NOT_DEPLOYED⟩).throttle < 1) ∨
    (autopilot_step 1 1000 ⟨false, 100, 0, 1, 1⟩
          ⟨true, 0, 0, ParachuteStatus.NOT_DEPLOYED⟩).throttle = 1 :=
  C10_no_cutoff_while_engaged 1 1000 ⟨false, 100, 0, 1, 1⟩
    ⟨true, 0, 0, ParachuteStatus.NOT_DEPLOYED⟩ rfl

/-! ### Integrator lemmas and claims -/

/-- Under constant acceleration, a run started in the bootstrap state
with zero velocity follows the exact quadratic p0 + (t^2/2) a at every
step: after k+1 steps the position is at time (k+1) dt and the lagged
previous position at time k dt. -/
theorem verlet_const_accel (dt : ℚ) (a p0 q0 : vector3d) (k : ℕ) :
    ((verlet_step dt a)^[k + 1] ⟨true, q0, p0, 0⟩).first_iteration = false ∧
    ((verlet_step dt a)^[k + 1] ⟨true, q0, p0, 0⟩).previous_position =
      p0 + ((1 : ℚ)/2 * ((k : ℚ) * dt) * ((k : ℚ) * dt)) • a ∧
    ((verlet_step dt a)^[k + 1] ⟨true, q0, p0, 0⟩).position =
      p0 + ((1 : ℚ)/2 * (((k : ℚ) + 1) * dt) * (((k : ℚ) + 1) * dt)) • a := by
  induction k with
  | zero =>
      simp only [Nat.cast_zero, zero_add, Function.iterate_one]
      refine ⟨by simp [verlet_step], ?_, ?_⟩
      · show (verlet_step dt a ⟨true, q0, p0, 0⟩).previous_position = _
        simp only [verlet_step]
        norm_num
        ext <;> simp [vadd_def, vsmul_def] <;> ring
      · show (verlet_step dt a ⟨true, q0, p0, 0⟩).position = _
        simp only [verlet_step]
        norm_num
        ext <;> simp [vadd_def, vsmul_def, vzero_def] <;> ring
  | succ k ih =>
      obtain ⟨h1, h2, h3⟩ := ih
      rw [Function.iterate_succ_apply']
      generalize hS : (verlet_step dt a)^[k + 1]
        (⟨true, q0, p0, 0⟩ : IntegratorState) = S at h1 h2 h3 ⊢
      refine ⟨by simp [verlet_step, h1], ?_, ?_⟩
      · simp only [verlet_step, h1]
        norm_num
        push_cast
        exact h3
      · simp only [verlet_step, h1]
        norm_num
        rw [h2, h3]
        push_cast
        ext <;> simp [vadd_def, vsub_def, vsmul_def] <;> ring

/-- C2: on a bootstrap invocation the new position is
previous_position + velocity dt + (1/2) a dt^2 with previous_position
the position at entry; starting at rest under constant acceleration,
the bootstrap step lands at p0 + (1/2) a dt^2 and every later
steady-state step reproduces p0 + (1/2) a t^2 exactly. -/
theorem C2_bootstrap_kinematics (dt : ℚ) (a : vector3d) (s : IntegratorState)
    (hboot : s.first_iteration = true) (p0 q0 : vector3d) (k : ℕ) :
    (verlet_step dt a s).position =
      s.position + dt • s.velocity + (0.5 * dt * dt) • a ∧
    (verlet_step dt a s).previous_position = s.position ∧
    ((verlet_step dt a)^[1] ⟨true, q0, p0, 0⟩).position =
      p0 + ((1 : ℚ)/2 * dt * dt) • a ∧
    ((verlet_step dt a)^[k + 1] ⟨true, q0, p0, 0⟩).position =
      p0 + ((1 : ℚ)/2 * (((k : ℚ) + 1) * dt) * (((k : ℚ) + 1) * dt)) • a := by
  refine ⟨?_, ?_, ?_, (verlet_const_accel dt a p0 q0 k).2.2⟩
  · simp [verlet_step, hboot]
  · simp [verlet_step, hboot]
  · simp only [Function.iterate_one, verlet_step]
    norm_num
    ext <;> simp [vadd_def, vsmul_def, vzero_def] <;> ring

theorem C2_witness :
    (⟨true, ⟨0, 0, 0⟩, ⟨0, 0, 0⟩, ⟨0, 0, 0⟩⟩ : IntegratorState).first_iteration
      = true ∧
    ((verlet_step 1 ⟨2, 0, 0⟩)^[2 + 1]
        ⟨true, ⟨0, 0, 0⟩, ⟨0, 0, 0⟩, ⟨0, 0, 0⟩⟩).position =
      ⟨0, 0, 0⟩ + ((1 : ℚ)/2 * ((((2 : ℕ) : ℚ) + 1) * 1) *
        ((((2 : ℕ) : ℚ) + 1) * 1)) • ⟨2, 0, 0⟩ :=
  ⟨rfl, (C2_bootstrap_kinematics 1 ⟨2, 0, 0⟩
    ⟨true, ⟨0, 0, 0⟩, ⟨0, 0, 0⟩, ⟨0, 0, 0⟩⟩ rfl ⟨0, 0, 0⟩ ⟨0, 0, 0⟩ 2).2.2.2⟩

/-- C5: on every invocation after the first, the new position is
2 position - previous_position + a dt^2, previous_position becomes the
old current position, and the velocity is derived from the new
position, the new previous_position and a dt^2 by the same
central-difference expression the bootstrap branch uses. -/
theorem C5_steady_state_step (dt : ℚ) (a : vector3d) (s s2 : IntegratorState)
    (h : s.first_iteration = false) (h2 : s2.first_iteration = true) :
    (verlet_step dt a s).position =
      (2 : ℚ) • s.position - s.previous_position + (dt * dt) • a ∧
    (verlet_step dt a s).previous_position = s.position ∧
    (verlet_step dt a s).velocity =
      verlet_velocity dt a (verlet_step dt a s).position
        (verlet_step dt a s).previous_position ∧
    (verlet_step dt a s2).velocity =
      verlet_velocity dt a (verlet_step dt a s2).position
        (verlet_step dt a s2).previous_position := by
  refine ⟨?_, ?_, ?_, ?_⟩ <;> simp [verlet_step, h, h2]

theorem C5_witness :
    (verlet_step 1 ⟨1, 0, 0⟩
      ⟨false, ⟨0, 0, 0⟩, ⟨1, 0, 0⟩, ⟨0, 0, 0⟩⟩).previous_position = ⟨1, 0, 0⟩ :=
  (C5_steady_state_step 1 ⟨1, 0, 0⟩ ⟨false, ⟨0, 0, 0⟩, ⟨1, 0, 0⟩, ⟨0, 0, 0⟩⟩
    ⟨true, ⟨0, 0, 0⟩, ⟨0, 0, 0⟩, ⟨0, 0, 0⟩⟩ rfl rfl).2.1

/-! ### Initializer claims -/

/-- C9 counterexample: the claim says every scenario recaptures
initial_altitude from the new starting position.  Scenario 0 does not:
starting from a stale initial_altitude of 42, after initializing
scenario 0 (start altitude 0.2 * MARS_RADIUS = 20000 for
MARS_RADIUS = 100000) the field still holds 42. -/
theorem C9_counterexample :
    (initialize_simulation 100000 200000 1 0
      ⟨false, true, 42, ⟨0, 0, 0⟩, ⟨0, 0, 0⟩, ⟨0, 0, 0⟩, 1,
        ParachuteStatus.DEPLOYED, true, true⟩).initial_altitude = 42 ∧
    axis_abs (initialize_simulation 100000 200000 1 0
      ⟨false, true, 42, ⟨0, 0, 0⟩, ⟨0, 0, 0⟩, ⟨0, 0, 0⟩, 1,
        ParachuteStatus.DEPLOYED, true, true⟩).position - 100000 ≠ 42 := by
  constructor
  · rfl
  · norm_num [initialize_simulation, axis_abs]

/-- C9 (amended): every call of the scenario initializer resets the
bootstrap flag and clears the engagement flag, for every scenario;
initial_altitude is recaptured from the new starting position only in
the autopilot-enabled scenarios 1 and 5 and is left unchanged in all
other scenarios. -/
theorem C9_scenario_reset (MARS_RADIUS EXOSPHERE LANDER_SIZE : ℚ)
    (scenario : ℕ) (g : GlobalState) :
    (initialize_simulation MARS_RADIUS EXOSPHERE LANDER_SIZE scenario
      g).first_iteration = true ∧
    (initialize_simulation MARS_RADIUS EXOSPHERE LANDER_SIZE scenario
      g).system_engaged = false ∧
    (scenario = 1 →
      (initialize_simulation MARS_RADIUS EXOSPHERE LANDER_SIZE scenario
        g).initial_altitude =
        axis_abs ⟨0, -(MARS_RADIUS + 10000), 0⟩ - MARS_RADIUS) ∧
    (scenario = 5 →
      (initialize_simulation MARS_RADIUS EXOSPHERE LANDER_SIZE scenario
        g).initial_altitude =
        axis_abs ⟨0, -(MARS_RADIUS + EXOSPHERE), 0⟩ - MARS_RADIUS) ∧
    (scenario ≠ 1 → scenario ≠ 5 →
      (initialize_simulation MARS_RADIUS EXOSPHERE LANDER_SIZE scenario
        g).initial_altitude = g.initial_altitude) := by
  rcases scenario with _ | _ | _ | _ | _ | _ | n <;>
    refine ⟨rfl, rfl, ?_, ?_, ?_⟩ <;> intros <;> first | rfl | omega

theorem C9_witness :
    (initialize_simulation 100000 200000 1 1
      ⟨false, true, 42, ⟨0, 0, 0⟩, ⟨0, 0, 0⟩, ⟨0, 0, 0⟩, 1,
        ParachuteStatus.DEPLOYED, true, true⟩).initial_altitude =
      axis_abs ⟨0, -(100000 + 10000), 0⟩ - 100000 :=
  (C9_scenario_reset 100000 200000 1 1
    ⟨false, true, 42, ⟨0, 0, 0⟩, ⟨0, 0, 0⟩, ⟨0, 0, 0⟩, 1,
      ParachuteStatus.DEPLOYED, true, true⟩).2.2.1 rfl

end MarsLander
